import Mathlib

/-!
Verification of the Conversational Dispatch Orchestrator
(behll/onepath-interview-prep) against its specification.

The Python sources are shallowly embedded: dictionaries become association
lists, money amounts become exact rationals (`ℚ`), per-stage exceptions
become `Except`, and the mutable session stores become explicit parameters.
-/

/-- Whether `p` occurs as a contiguous run inside `l`. -/
def listIsInfixOf (p : List Char) : List Char → Bool
  | [] => p.isEmpty
  | a :: l => p.isPrefixOf (a :: l) || listIsInfixOf p l

/-- Python `pattern in message` (substring containment on strings). -/
def containsSub (message pat : String) : Bool :=
  listIsInfixOf pat.toList message.toList

/-- Python `message.lower()`, character by character (the inputs here are
ASCII, where `Char.toLower` agrees with `str.lower`). -/
def strToLower (s : String) : String :=
  String.mk (s.data.map Char.toLower)

/-- Python `d.get(k, default)` over an association-list dictionary. -/
def dictGet (d : List (String × ℚ)) (k : String) (default : ℚ) : ℚ :=
  (List.lookup k d).getD default

/-!
## Pricing engines

`SimpleAgentDemo.calculate_pricing` (src/simple_demo.py, lines 121-176) and
`PricingService.calculate_pricing` (src/langchain_agent_system.py, lines
137-190) return the same breakdown dictionary shape.
-/

/-- The breakdown dictionary returned by both pricing functions.  Neither
function computes any same-visit savings, so the breakdown has no such
field (it is identically 0). -/
structure PricingBreakdown where
  base_cost : ℚ
  addon_cost : ℚ
  subtotal : ℚ
  bundle_discount : ℚ
  urgency_surcharge : ℚ
  tax : ℚ
  total : ℚ
  savings : ℚ
deriving Repr, DecidableEq

namespace SimpleAgentDemo

/-- `base_prices` dict of `SimpleAgentDemo.calculate_pricing`. -/
def base_prices : List (String × ℚ) :=
  [("ac_repair", 150), ("heating", 175), ("plumbing", 125), ("electrical", 200)]

/-- `addon_prices` dict of `SimpleAgentDemo.calculate_pricing`. -/
def addon_prices : List (String × ℚ) :=
  [("thermostat_install", 200), ("filter_replacement", 25), ("duct_cleaning", 300)]

/-- `SimpleAgentDemo.calculate_pricing` (src/simple_demo.py, lines 121-176). -/
def calculate_pricing (service_type : String) (additional_services : List String)
    (urgency : String) : PricingBreakdown :=
  let base_cost := dictGet base_prices service_type 150
  let addon_cost := (additional_services.map fun s => dictGet addon_prices s 0).sum
  let subtotal := base_cost + addon_cost
  let bundle_discount : ℚ := if additional_services.isEmpty then 0 else 0.15
  let discount_amount := subtotal * bundle_discount
  let urgency_surcharge : ℚ :=
    if urgency = "emergency" then 75 else if urgency = "high" then 25 else 0
  let total := subtotal - discount_amount + urgency_surcharge
  let tax := total * 0.08
  let final_total := total + tax
  { base_cost := base_cost
    addon_cost := addon_cost
    subtotal := subtotal
    bundle_discount := discount_amount
    urgency_surcharge := urgency_surcharge
    tax := tax
    total := final_total
    savings := discount_amount }

end SimpleAgentDemo

namespace PricingService

/-- `base_prices` dict of `PricingService.calculate_pricing`: each service
maps to a `{"diagnostic": d, "repair": r}` pair. -/
def base_prices : List (String × (ℚ × ℚ)) :=
  [("ac_repair", (75, 150)), ("heating", (75, 175)),
   ("plumbing", (50, 125)), ("electrical", (100, 200))]

/-- `addon_prices` dict of `PricingService.calculate_pricing`. -/
def addon_prices : List (String × ℚ) :=
  [("thermostat_install", 200), ("filter_replacement", 25),
   ("duct_cleaning", 300), ("maintenance_plan", 150)]

/-- `PricingService.calculate_pricing` (src/langchain_agent_system.py, lines
137-190).  `additional_services` defaults to Python `None`, modelled as
`Option`; `sum(....values())` adds the diagnostic and repair components. -/
def calculate_pricing (service_type : String)
    (additional_services : Option (List String)) (urgency : String) :
    PricingBreakdown :=
  let pair := (List.lookup service_type base_prices).getD (75, 150)
  let base_cost := pair.1 + pair.2
  let addon_cost :=
    ((additional_services.getD []).map fun s => dictGet addon_prices s 0).sum
  let subtotal := base_cost + addon_cost
  let bundle_discount : ℚ :=
    match additional_services with
    | none => 0
    | some l => if 0 < l.length then 0.15 else 0
  let discount_amount := subtotal * bundle_discount
  let urgency_surcharge : ℚ :=
    if urgency = "emergency" then 75 else if urgency = "high" then 25 else 0
  let total := subtotal - discount_amount + urgency_surcharge
  let tax := total * 0.08
  let final_total := total + tax
  { base_cost := base_cost
    addon_cost := addon_cost
    subtotal := subtotal
    bundle_discount := discount_amount
    urgency_surcharge := urgency_surcharge
    tax := tax
    total := final_total
    savings := discount_amount }

end PricingService

/-!
## Positivity helpers for the pricing tables
-/

lemma lookup_getD_prop {β : Type} (P : β → Prop) (d : List (String × β)) (k : String)
    (default : β) (hd : ∀ p ∈ d, P p.2) (h0 : P default) :
    P ((List.lookup k d).getD default) := by
  induction d with
  | nil => simpa [List.lookup] using h0
  | cons p rest ih =>
    obtain ⟨k', v⟩ := p
    cases hk : k == k' with
    | true =>
      simpa [List.lookup, hk] using hd (k', v) (List.mem_cons_self _ rest)
    | false =>
      simp only [List.lookup, hk]
      exact ih fun q hq => hd q (List.mem_cons_of_mem _ hq)

lemma simple_base_cost_pos (s : String) :
    0 < dictGet SimpleAgentDemo.base_prices s 150 := by
  refine lookup_getD_prop (fun v => 0 < v) _ _ _ ?_ (by norm_num)
  intro p hp
  simp only [SimpleAgentDemo.base_prices, List.mem_cons, List.not_mem_nil, or_false] at hp
  rcases hp with h | h | h | h <;> subst h <;> norm_num

lemma simple_addon_cost_nonneg (l : List String) :
    0 ≤ (l.map fun s => dictGet SimpleAgentDemo.addon_prices s 0).sum := by
  refine List.sum_nonneg ?_
  intro x hx
  simp only [List.mem_map] at hx
  obtain ⟨s, _, rfl⟩ := hx
  refine lookup_getD_prop (fun v => 0 ≤ v) _ _ _ ?_ le_rfl
  intro p hp
  simp only [SimpleAgentDemo.addon_prices, List.mem_cons, List.not_mem_nil, or_false] at hp
  rcases hp with h | h | h <;> subst h <;> norm_num

lemma lc_base_cost_pos (s : String) :
    0 < ((List.lookup s PricingService.base_prices).getD (75, 150)).1 +
        ((List.lookup s PricingService.base_prices).getD (75, 150)).2 := by
  refine lookup_getD_prop (fun v : ℚ × ℚ => 0 < v.1 + v.2) _ _ _ ?_ (by norm_num)
  intro p hp
  simp only [PricingService.base_prices, List.mem_cons, List.not_mem_nil, or_false] at hp
  rcases hp with h | h | h | h <;> subst h <;> norm_num

lemma lc_addon_cost_nonneg (l : List String) :
    0 ≤ (l.map fun s => dictGet PricingService.addon_prices s 0).sum := by
  refine List.sum_nonneg ?_
  intro x hx
  simp only [List.mem_map] at hx
  obtain ⟨s, _, rfl⟩ := hx
  refine lookup_getD_prop (fun v => 0 ≤ v) _ _ _ ?_ le_rfl
  intro p hp
  simp only [PricingService.addon_prices, List.mem_cons, List.not_mem_nil, or_false] at hp
  rcases hp with h | h | h | h <;> subst h <;> norm_num

/-!
## C1: the pricing identity
-/

/-- C1.  Every breakdown computed by either pricing engine satisfies the
exact identity `total = subtotal − bundleDiscount − sameVisitSavings +
urgencySurcharge + tax` with `subtotal = baseCost + addonCost`.  Neither
engine computes a same-visit savings, so that term is identically `0`. -/
theorem pricing_identity_holds (service_type : String)
    (additional_services : List String) (urgency : String)
    (lc_additional_services : Option (List String)) :
    ((SimpleAgentDemo.calculate_pricing service_type additional_services urgency).total =
      (SimpleAgentDemo.calculate_pricing service_type additional_services urgency).subtotal -
      (SimpleAgentDemo.calculate_pricing service_type additional_services urgency).bundle_discount -
      0 +
      (SimpleAgentDemo.calculate_pricing service_type additional_services urgency).urgency_surcharge +
      (SimpleAgentDemo.calculate_pricing service_type additional_services urgency).tax ∧
     (SimpleAgentDemo.calculate_pricing service_type additional_services urgency).subtotal =
      (SimpleAgentDemo.calculate_pricing service_type additional_services urgency).base_cost +
      (SimpleAgentDemo.calculate_pricing service_type additional_services urgency).addon_cost) ∧
    ((PricingService.calculate_pricing service_type lc_additional_services urgency).total =
      (PricingService.calculate_pricing service_type lc_additional_services urgency).subtotal -
      (PricingService.calculate_pricing service_type lc_additional_services urgency).bundle_discount -
      0 +
      (PricingService.calculate_pricing service_type lc_additional_services urgency).urgency_surcharge +
      (PricingService.calculate_pricing service_type lc_additional_services urgency).tax ∧
     (PricingService.calculate_pricing service_type lc_additional_services urgency).subtotal =
      (PricingService.calculate_pricing service_type lc_additional_services urgency).base_cost +
      (PricingService.calculate_pricing service_type lc_additional_services urgency).addon_cost) := by
  refine ⟨⟨?_, ?_⟩, ⟨?_, ?_⟩⟩ <;>
    simp only [SimpleAgentDemo.calculate_pricing, PricingService.calculate_pricing] <;> ring

/-!
## C5: bundle discount iff a non-empty addon set
-/

lemma simple_subtotal_pos (s : String) (a : List String) (u : String) :
    0 < (SimpleAgentDemo.calculate_pricing s a u).subtotal := by
  simp only [SimpleAgentDemo.calculate_pricing]
  exact add_pos_of_pos_of_nonneg (simple_base_cost_pos s) (simple_addon_cost_nonneg a)

lemma lc_subtotal_pos (s : String) (a : Option (List String)) (u : String) :
    0 < (PricingService.calculate_pricing s a u).subtotal := by
  simp only [PricingService.calculate_pricing]
  exact add_pos_of_pos_of_nonneg (lc_base_cost_pos s) (lc_addon_cost_nonneg _)

/-- C5.  In both pricing engines the bundle discount equals
`0.15 × subtotal` when the addon set is non-empty and `0` when it is empty,
so it is non-zero exactly when `additionalServices` is non-empty (the
subtotal is always positive). -/
theorem bundle_discount_iff_addons (service_type : String)
    (additional_services : List String) (urgency : String)
    (lc_additional_services : Option (List String)) :
    ((SimpleAgentDemo.calculate_pricing service_type additional_services urgency).bundle_discount =
        (if additional_services = [] then 0 else
          0.15 * (SimpleAgentDemo.calculate_pricing service_type additional_services urgency).subtotal) ∧
      ((SimpleAgentDemo.calculate_pricing service_type additional_services urgency).bundle_discount ≠ 0 ↔
        additional_services ≠ [])) ∧
    ((PricingService.calculate_pricing service_type lc_additional_services urgency).bundle_discount =
        (if lc_additional_services.getD [] = [] then 0 else
          0.15 * (PricingService.calculate_pricing service_type lc_additional_services urgency).subtotal) ∧
      ((PricingService.calculate_pricing service_type lc_additional_services urgency).bundle_discount ≠ 0 ↔
        lc_additional_services.getD [] ≠ [])) := by
  constructor
  · cases additional_services with
    | nil => simp [SimpleAgentDemo.calculate_pricing]
    | cons x xs =>
      have hsub := simple_subtotal_pos service_type (x :: xs) urgency
      have hd : (SimpleAgentDemo.calculate_pricing service_type (x :: xs) urgency).bundle_discount
          = 0.15 * (SimpleAgentDemo.calculate_pricing service_type (x :: xs) urgency).subtotal := by
        simp [SimpleAgentDemo.calculate_pricing]
        try ring
      refine ⟨by simpa using hd, ?_⟩
      rw [hd]
      simp only [ne_eq, List.cons_ne_nil, not_false_eq_true, iff_true]
      exact mul_ne_zero (by norm_num) (ne_of_gt hsub)
  · match lc_additional_services with
    | none => simp [PricingService.calculate_pricing]
    | some [] => simp [PricingService.calculate_pricing]
    | some (x :: xs) =>
      have hsub := lc_subtotal_pos service_type (some (x :: xs)) urgency
      have hd : (PricingService.calculate_pricing service_type (some (x :: xs)) urgency).bundle_discount
          = 0.15 * (PricingService.calculate_pricing service_type (some (x :: xs)) urgency).subtotal := by
        simp [PricingService.calculate_pricing, Nat.succ_pos]
        try ring
      refine ⟨by simpa using hd, ?_⟩
      rw [hd]
      simp only [Option.getD_some, ne_eq, List.cons_ne_nil, not_false_eq_true, iff_true]
      exact mul_ne_zero (by norm_num) (ne_of_gt hsub)

/-!
## C10: the final total is not monotone in the addon set
-/

lemma simple_pricing_ac_bare :
    SimpleAgentDemo.calculate_pricing "ac_repair" [] "normal" =
      { base_cost := 150, addon_cost := 0, subtotal := 150, bundle_discount := 0,
        urgency_surcharge := 0, tax := 12, total := 162, savings := 0 } := by
  simp +decide only [SimpleAgentDemo.calculate_pricing, dictGet, List.lookup,
    SimpleAgentDemo.base_prices, SimpleAgentDemo.addon_prices, List.map_nil, List.sum_nil,
    Option.getD_some, PricingBreakdown.mk.injEq]
  norm_num

lemma simple_pricing_ac_filter :
    SimpleAgentDemo.calculate_pricing "ac_repair" ["filter_replacement"] "normal" =
      { base_cost := 150, addon_cost := 25, subtotal := 175, bundle_discount := 26.25,
        urgency_surcharge := 0, tax := 11.9, total := 160.65, savings := 26.25 } := by
  simp +decide only [SimpleAgentDemo.calculate_pricing, dictGet,
    show List.lookup "ac_repair" SimpleAgentDemo.base_prices = some 150 from by decide,
    show List.lookup "filter_replacement" SimpleAgentDemo.addon_prices = some 25 from by decide,
    List.map_cons, List.map_nil, List.sum_cons, List.sum_nil,
    Option.getD_some, PricingBreakdown.mk.injEq]
  norm_num

lemma lc_pricing_ac_bare :
    PricingService.calculate_pricing "ac_repair" (some []) "normal" =
      { base_cost := 225, addon_cost := 0, subtotal := 225, bundle_discount := 0,
        urgency_surcharge := 0, tax := 18, total := 243, savings := 0 } := by
  simp +decide only [PricingService.calculate_pricing, dictGet,
    show List.lookup "ac_repair" PricingService.base_prices = some (75, 150) from by decide,
    List.map_nil, List.sum_nil, Option.getD_some, PricingBreakdown.mk.injEq]
  norm_num

lemma lc_pricing_ac_filter :
    PricingService.calculate_pricing "ac_repair" (some ["filter_replacement"]) "normal" =
      { base_cost := 225, addon_cost := 25, subtotal := 250, bundle_discount := 37.5,
        urgency_surcharge := 0, tax := 17, total := 229.5, savings := 37.5 } := by
  simp +decide only [PricingService.calculate_pricing, dictGet,
    show List.lookup "ac_repair" PricingService.base_prices = some (75, 150) from by decide,
    show List.lookup "filter_replacement" PricingService.addon_prices = some 25 from by decide,
    List.map_cons, List.map_nil, List.sum_cons, List.sum_nil,
    Option.getD_some, PricingBreakdown.mk.injEq]
  norm_num

/-- C10.  Adding `filter_replacement` (a 25-dollar addon) to a bare
`ac_repair` job strictly decreases both the pre-tax total
(`subtotal − bundleDiscount + urgencySurcharge`) and the final total in
both pricing engines: the 15% bundle discount applies to the whole
subtotal, including the base cost. -/
theorem total_not_monotone_in_addons :
    ((SimpleAgentDemo.calculate_pricing "ac_repair" ["filter_replacement"] "normal").subtotal -
        (SimpleAgentDemo.calculate_pricing "ac_repair" ["filter_replacement"] "normal").bundle_discount +
        (SimpleAgentDemo.calculate_pricing "ac_repair" ["filter_replacement"] "normal").urgency_surcharge <
      (SimpleAgentDemo.calculate_pricing "ac_repair" [] "normal").subtotal -
        (SimpleAgentDemo.calculate_pricing "ac_repair" [] "normal").bundle_discount +
        (SimpleAgentDemo.calculate_pricing "ac_repair" [] "normal").urgency_surcharge) ∧
    ((SimpleAgentDemo.calculate_pricing "ac_repair" ["filter_replacement"] "normal").total <
      (SimpleAgentDemo.calculate_pricing "ac_repair" [] "normal").total) ∧
    ((PricingService.calculate_pricing "ac_repair" (some ["filter_replacement"]) "normal").subtotal -
        (PricingService.calculate_pricing "ac_repair" (some ["filter_replacement"]) "normal").bundle_discount +
        (PricingService.calculate_pricing "ac_repair" (some ["filter_replacement"]) "normal").urgency_surcharge <
      (PricingService.calculate_pricing "ac_repair" (some []) "normal").subtotal -
        (PricingService.calculate_pricing "ac_repair" (some []) "normal").bundle_discount +
        (PricingService.calculate_pricing "ac_repair" (some []) "normal").urgency_surcharge) ∧
    ((PricingService.calculate_pricing "ac_repair" (some ["filter_replacement"]) "normal").total <
      (PricingService.calculate_pricing "ac_repair" (some []) "normal").total) := by
  rw [simple_pricing_ac_bare, simple_pricing_ac_filter, lc_pricing_ac_bare, lc_pricing_ac_filter]
  norm_num

/-!
## Entity extraction and the stage-chain planner

`AgentOrchestrator._extract_entities_from_message` (src/agent_orchestrator.py,
lines 232-281), `AgentOrchestrator._determine_agent_chain` (lines 374-398)
and `SimpleAgentDemo.analyze_customer_request` (src/simple_demo.py, lines
25-74).  Python dicts iterate in declaration order and `break` keeps the
first match, modelled with `List.find?`; a boolean entity key is only ever
set to `True`, so an absent key is modelled as `false`.
-/

structure ExtractedEntities where
  service_type : Option String
  urgency : Option String
  bundle_request : Bool
  pricing_request : Bool
  scheduling_request : Bool
deriving Repr, DecidableEq

namespace AgentOrchestrator

def service_patterns : List (String × List String) :=
  [("ac_repair", ["ac", "air conditioning", "cooling", "hvac", "conditioner"]),
   ("heating", ["heat", "heating", "furnace", "boiler", "warm"]),
   ("plumbing", ["plumb", "water", "leak", "pipe", "drain", "toilet"]),
   ("electrical", ["electric", "power", "outlet", "wiring", "lights"])]

def urgency_patterns : List (String × List String) :=
  [("emergency", ["emergency", "urgent", "asap", "immediately", "broken", "not working", "dead"]),
   ("high", ["this week", "soon", "quickly", "today", "tomorrow"]),
   ("normal", ["convenient", "schedule", "when possible"]),
   ("low", ["whenever", "no rush", "flexible"])]

def bundle_indicators : List String :=
  ["add", "also", "too", "bundle", "package", "plus", "include"]

def pricing_indicators : List String :=
  ["cost", "price", "how much", "quote", "estimate", "expensive"]

def schedule_indicators : List String :=
  ["when", "schedule", "appointment", "time", "available"]

/-- `AgentOrchestrator._extract_entities_from_message`. -/
def _extract_entities_from_message (message : String) : ExtractedEntities :=
  let ml := strToLower message
  { service_type :=
      (service_patterns.find? fun sp => sp.2.any fun p => containsSub ml p).map Prod.fst
    urgency :=
      (urgency_patterns.find? fun up => up.2.any fun p => containsSub ml p).map Prod.fst
    bundle_request := bundle_indicators.any fun p => containsSub ml p
    pricing_request := pricing_indicators.any fun p => containsSub ml p
    scheduling_request := schedule_indicators.any fun p => containsSub ml p }

/-- `AgentOrchestrator._determine_agent_chain` (src/agent_orchestrator.py,
lines 374-398). -/
def _determine_agent_chain (entities : ExtractedEntities) : List String :=
  let chain : List String := ["customer_relations"]
  let chain := if entities.bundle_request then chain ++ ["bundle_optimizer"] else chain
  let chain := if entities.scheduling_request ||
      (entities.urgency == some "emergency" || entities.urgency == some "high") then
      chain ++ ["calendar_specialist"] else chain
  let chain := if entities.pricing_request || chain.contains "bundle_optimizer" then
      chain ++ ["pricing_analyst"] else chain
  chain

end AgentOrchestrator

/-- The planner contract as written in the spec (§4.3): four fixed segments
in fixed order — communication always, bundle iff requested, calendar iff
scheduling or urgent, pricing iff requested or bundle included. -/
def planRuleTable (e : ExtractedEntities) : List String :=
  ["customer_relations"] ++
  (if e.bundle_request then ["bundle_optimizer"] else []) ++
  (if e.scheduling_request || (e.urgency == some "emergency" || e.urgency == some "high") then
    ["calendar_specialist"] else []) ++
  (if e.pricing_request || e.bundle_request then ["pricing_analyst"] else [])

lemma chain_nodup (e : ExtractedEntities) :
    (AgentOrchestrator._determine_agent_chain e).Nodup := by
  unfold AgentOrchestrator._determine_agent_chain
  cases hb : e.bundle_request <;>
    cases hc : (e.scheduling_request ||
      (e.urgency == some "emergency" || e.urgency == some "high")) <;>
      cases hp : e.pricing_request <;>
        simp +decide [hb, hc, hp]

/-- C2.  For every extracted-entity record the planner emits exactly the
stages of the spec's fixed rule table, in fixed order and with no stage
twice: communication always, bundle iff `bundleRequested`, calendar iff
`schedulingRequested` or urgency emergency/high, pricing iff
`pricingRequested` or bundle included. -/
theorem planner_matches_rule_table (e : ExtractedEntities) :
    AgentOrchestrator._determine_agent_chain e = planRuleTable e ∧
    (AgentOrchestrator._determine_agent_chain e).Nodup := by
  refine ⟨?_, chain_nodup e⟩
  unfold AgentOrchestrator._determine_agent_chain planRuleTable
  cases hb : e.bundle_request <;>
    cases hc : (e.scheduling_request ||
      (e.urgency == some "emergency" || e.urgency == some "high")) <;>
      cases hp : e.pricing_request <;>
        simp +decide [hb, hc, hp]

/-!
## C3: the spec's worked scenario
-/

/-- `SimpleAgentDemo.analyze_customer_request` output (src/simple_demo.py,
lines 25-74). -/
structure Analysis where
  service_type : String
  urgency : String
  additional_services : List String
  requires_scheduling : Bool
  requires_pricing : Bool
  bundle_request : Bool
deriving Repr, DecidableEq

namespace SimpleAgentDemo

/-- `SimpleAgentDemo.analyze_customer_request` (src/simple_demo.py, lines
25-74): defaults `service_type = "ac_repair"`, `urgency = "normal"`,
overwritten by the first matching branch. -/
def analyze_customer_request (message : String) : Analysis :=
  let ml := strToLower message
  let service_type :=
    if ["ac", "air conditioning", "cooling"].any (fun w => containsSub ml w) then "ac_repair"
    else if ["heat", "heating", "furnace"].any (fun w => containsSub ml w) then "heating"
    else if ["plumb", "water", "leak"].any (fun w => containsSub ml w) then "plumbing"
    else if ["electric", "power", "outlet"].any (fun w => containsSub ml w) then "electrical"
    else "ac_repair"
  let urgency :=
    if ["emergency", "urgent", "asap", "broken"].any (fun w => containsSub ml w) then "emergency"
    else if ["this week", "soon", "today"].any (fun w => containsSub ml w) then "high"
    else if ["whenever", "flexible"].any (fun w => containsSub ml w) then "low"
    else "normal"
  let additional_services :=
    (if containsSub ml "thermostat" then ["thermostat_install"] else []) ++
    (if containsSub ml "filter" then ["filter_replacement"] else [])
  { service_type := service_type
    urgency := urgency
    additional_services := additional_services
    requires_scheduling := ["week", "today", "tomorrow"].any fun w => containsSub ml w
    requires_pricing := ["cost", "price", "how much"].any fun w => containsSub ml w
    bundle_request := ["add", "bundle", "also", "too"].any fun w => containsSub ml w }

end SimpleAgentDemo

/-- The spec's §8 scenario input. -/
def scenarioText : String := "My AC is broken. Can someone fix it this week?"

/-- C3, counterexample.  On the spec's scenario text both extractors
classify the urgency as `emergency` (the word `broken` matches the
emergency pattern list, which is checked before `this week` can match
`high`), and the planner chain contains no pricing stage. -/
theorem scenario_claim_false :
    (AgentOrchestrator._extract_entities_from_message scenarioText).urgency ≠ some "high" ∧
    (SimpleAgentDemo.analyze_customer_request scenarioText).urgency ≠ "high" ∧
    AgentOrchestrator._determine_agent_chain
        (AgentOrchestrator._extract_entities_from_message scenarioText) ≠
      ["customer_relations", "calendar_specialist", "pricing_analyst"] := by
  decide

lemma lc_pricing_ac_emergency :
    PricingService.calculate_pricing "ac_repair" none "emergency" =
      { base_cost := 225, addon_cost := 0, subtotal := 225, bundle_discount := 0,
        urgency_surcharge := 75, tax := 24, total := 324, savings := 0 } := by
  simp +decide only [PricingService.calculate_pricing, dictGet,
    show List.lookup "ac_repair" PricingService.base_prices = some (75, 150) from by decide,
    List.map_nil, List.sum_nil, Option.getD_some, Option.getD_none,
    PricingBreakdown.mk.injEq]
  norm_num

/-- C3, amended.  On the scenario text the extractors yield
`serviceType = ac_repair` and `urgency = emergency` (not `high`: `broken`
is an emergency pattern and is matched first); the orchestrator extractor
sets no scheduling flag (none of its schedule indicators occur in the
text) while `simple_demo` does set `requires_scheduling` via `week`; the
planner chain is `[communication, calendar]` with no pricing stage (pricing
was not requested and no bundle was included); and pricing the bare
`ac_repair` job at `emergency` yields `baseCost = 225`,
`urgencySurcharge = 75`, `subtotal = 225`, `tax = 24`, `total = 324`. -/
theorem scenario_amended :
    AgentOrchestrator._extract_entities_from_message scenarioText =
      { service_type := some "ac_repair", urgency := some "emergency",
        bundle_request := false, pricing_request := false, scheduling_request := false } ∧
    AgentOrchestrator._determine_agent_chain
        (AgentOrchestrator._extract_entities_from_message scenarioText) =
      ["customer_relations", "calendar_specialist"] ∧
    SimpleAgentDemo.analyze_customer_request scenarioText =
      { service_type := "ac_repair", urgency := "emergency", additional_services := [],
        requires_scheduling := true, requires_pricing := false, bundle_request := false } ∧
    PricingService.calculate_pricing "ac_repair" none "emergency" =
      { base_cost := 225, addon_cost := 0, subtotal := 225, bundle_discount := 0,
        urgency_surcharge := 75, tax := 24, total := 324, savings := 0 } := by
  refine ⟨by decide, by decide, by decide, lc_pricing_ac_emergency⟩

/-!
## Chain execution and response synthesis

`AgentOrchestrator._execute_agent_chain` (src/agent_orchestrator.py, lines
323-372) and `_synthesize_response` (lines 428-479).  Stage executors
(`ReACTAgent.think_and_act`, an external collaborator) are modelled as a
function returning `Except`: `.error` is a raised exception.
-/

/-- A stage executor's result dictionary, restricted to its `confidence`
and `error` keys (each may be absent). -/
structure AgentResult where
  confidence : Option ℚ
  error : Option String
deriving Repr, DecidableEq

/-- The record `{"error": str(e), "confidence": 0.0}` that
`_execute_agent_chain` stores when an executor throws. -/
def failureRecord (msg : String) : AgentResult :=
  { confidence := some 0, error := some msg }

namespace AgentOrchestrator

/-- One iteration of the loop in `_execute_agent_chain`: the executor's
exception is caught and replaced by the failure record; the loop then
continues with the other agents. -/
def runStage (agentExec : String → Except String AgentResult)
    (agent_name : String) : AgentResult :=
  match agentExec agent_name with
  | .ok r => r
  | .error msg => failureRecord msg

/-- `AgentOrchestrator._execute_agent_chain`: the `chain_results` dict,
keyed by agent name, one entry per chain stage, failures kept. -/
def _execute_agent_chain (entities : ExtractedEntities)
    (agentExec : String → Except String AgentResult) :
    List (String × AgentResult) :=
  (_determine_agent_chain entities).map fun n => (n, runStage agentExec n)

/-- The `confidences` list built in `_synthesize_response` (lines 455-459):
the primary confidence (defaulting to 0.7) followed by the confidence of
every chain result that has a `confidence` key. -/
def confidenceList (primary : AgentResult)
    (chain_results : List (String × AgentResult)) : List ℚ :=
  primary.confidence.getD 0.7 :: chain_results.filterMap fun nr => nr.2.confidence

/-- `overall_confidence` in `_synthesize_response` (line 461). -/
def overall_confidence (primary : AgentResult)
    (chain_results : List (String × AgentResult)) : ℚ :=
  let confidences := confidenceList primary chain_results
  if confidences.isEmpty then 0.5 else confidences.sum / confidences.length

/-- The `combined_result` dictionary of `_synthesize_response`
(lines 445-453), with the workflow summary restricted to the involved
agents. -/
structure CombinedResult where
  primary_analysis : AgentResult
  specialized_results : List (String × AgentResult)
  agents_involved : List String
deriving Repr, DecidableEq

/-- The response fields of `_synthesize_response` the claims are about. -/
structure AgentResponse where
  result : CombinedResult
  confidence : ℚ
deriving Repr, DecidableEq

/-- `AgentOrchestrator._synthesize_response` (lines 428-479). -/
def _synthesize_response (primary : AgentResult)
    (chain_results : List (String × AgentResult)) : AgentResponse :=
  { result :=
      { primary_analysis := primary
        specialized_results := chain_results
        agents_involved := chain_results.map Prod.fst }
    confidence := overall_confidence primary chain_results }

end AgentOrchestrator

/-- The confidence rule as the spec states it (§4.5): the mean over the
primary confidence and the confidences of the *successful* stages only. -/
def successfulOnlyConfidence (primary : AgentResult)
    (chain_results : List (String × AgentResult)) : ℚ :=
  let confs := primary.confidence.getD 0.7 ::
    (chain_results.filter fun nr => nr.2.error == none).filterMap fun nr => nr.2.confidence
  confs.sum / confs.length

/-- A concrete run for the confidence claims: a bundle request whose
bundle stage throws while the other stages succeed. -/
def c4Entities : ExtractedEntities :=
  { service_type := none, urgency := none, bundle_request := true,
    pricing_request := false, scheduling_request := false }

def c4Exec : String → Except String AgentResult := fun name =>
  if name = "bundle_optimizer" then .error "bundle backend timeout"
  else if name = "pricing_analyst" then .ok { confidence := some 0.9, error := none }
  else .ok { confidence := some 0.8, error := none }

def c4Primary : AgentResult := { confidence := some 0.7, error := none }

/-- C4, counterexample.  On the concrete run where the bundle stage throws
and the others succeed, the synthesized confidence is
`(0.7 + 0.8 + 0.0 + 0.9) / 4 = 0.6`, not the spec's successful-only mean
`(0.7 + 0.8 + 0.9) / 3 = 0.8`: the failed stage's 0.0 is averaged in. -/
theorem confidence_counterexample :
    AgentOrchestrator.overall_confidence c4Primary
        (AgentOrchestrator._execute_agent_chain c4Entities c4Exec) = 0.6 ∧
    successfulOnlyConfidence c4Primary
        (AgentOrchestrator._execute_agent_chain c4Entities c4Exec) = 0.8 ∧
    (0.6 : ℚ) ≠ 0.8 := by
  have hc : AgentOrchestrator.confidenceList c4Primary
      (AgentOrchestrator._execute_agent_chain c4Entities c4Exec) =
      [0.7, 0.8, 0, 0.9] := rfl
  have hf : ((AgentOrchestrator._execute_agent_chain c4Entities c4Exec).filter
        fun nr => nr.2.error == none).filterMap (fun nr => nr.2.confidence) =
      [0.8, 0.9] := rfl
  refine ⟨?_, ?_, by norm_num⟩
  · simp only [AgentOrchestrator.overall_confidence, hc]
    norm_num
  · simp only [successfulOnlyConfidence, hf, c4Primary]
    norm_num

/-- C4, amended.  The overall confidence averages the primary confidence
together with every chain result that carries a `confidence` key; a failed
stage is recorded with confidence 0.0 and is therefore *included* in the
average (zero-weighted in, not excluded): whenever a stage of the chain
throws, the averaged list contains that stage's 0 entry and the
denominator counts it. -/
theorem confidence_zero_weights_failed_stage (e : ExtractedEntities)
    (agentExec : String → Except String AgentResult) (primary : AgentResult)
    (s : String) (msg : String)
    (hs : s ∈ AgentOrchestrator._determine_agent_chain e)
    (hf : agentExec s = Except.error msg) :
    ∃ l₁ l₂, AgentOrchestrator.confidenceList primary
          (AgentOrchestrator._execute_agent_chain e agentExec) = l₁ ++ (0:ℚ) :: l₂ ∧
      AgentOrchestrator.overall_confidence primary
          (AgentOrchestrator._execute_agent_chain e agentExec) =
        (l₁ ++ (0:ℚ) :: l₂).sum / (l₁ ++ (0:ℚ) :: l₂).length := by
  have hrs : AgentOrchestrator.runStage agentExec s = failureRecord msg := by
    unfold AgentOrchestrator.runStage
    rw [hf]
  obtain ⟨t₁, t₂, ht⟩ := List.append_of_mem hs
  have hlist : AgentOrchestrator.confidenceList primary
      (AgentOrchestrator._execute_agent_chain e agentExec) =
      (primary.confidence.getD 0.7 ::
        (t₁.map fun n => (n, AgentOrchestrator.runStage agentExec n)).filterMap
          (fun nr => nr.2.confidence)) ++ (0:ℚ) ::
        (t₂.map fun n => (n, AgentOrchestrator.runStage agentExec n)).filterMap
          (fun nr => nr.2.confidence) := by
    unfold AgentOrchestrator.confidenceList AgentOrchestrator._execute_agent_chain
    rw [ht]
    simp [hrs, List.filterMap_append, failureRecord]
  refine ⟨_, _, hlist, ?_⟩
  unfold AgentOrchestrator.overall_confidence
  rw [hlist]
  simp [AgentOrchestrator.confidenceList]

/-- Witness for `confidence_zero_weights_failed_stage` at the concrete
failing run. -/
theorem confidence_zero_weights_failed_stage_witness :
    ∃ l₁ l₂, AgentOrchestrator.confidenceList c4Primary
          (AgentOrchestrator._execute_agent_chain c4Entities c4Exec) = l₁ ++ (0:ℚ) :: l₂ ∧
      AgentOrchestrator.overall_confidence c4Primary
          (AgentOrchestrator._execute_agent_chain c4Entities c4Exec) =
        (l₁ ++ (0:ℚ) :: l₂).sum / (l₁ ++ (0:ℚ) :: l₂).length :=
  confidence_zero_weights_failed_stage c4Entities c4Exec c4Primary
    "bundle_optimizer" "bundle backend timeout" (by decide) rfl

/-!
## C7: a failed stage does not abort the chain or drop sibling results
-/

lemma lookup_map_self {β : Type} (f : String → β) (l : List String) (t : String)
    (h : t ∈ l) : List.lookup t (l.map fun n => (n, f n)) = some (f t) := by
  induction l with
  | nil => cases h
  | cons a l ih =>
    cases hk : t == a with
    | true =>
      have ht : t = a := eq_of_beq hk
      subst ht
      simp [List.lookup]
    | false =>
      have hm : t ∈ l := by
        rcases List.mem_cons.mp h with rfl | hm
        · simp at hk
        · exact hm
      simpa [List.lookup, hk] using ih hm

/-- C7.  When one stage executor throws during a chain run, the failure is
recorded under that stage's name with confidence 0, every stage of the
chain still has an entry in `chain_results` (the remaining stages still
execute), every successfully executed stage keeps its own result, and the
synthesized response's `result` carries all of `chain_results`. -/
theorem failed_stage_keeps_others (e : ExtractedEntities)
    (agentExec : String → Except String AgentResult) (primary : AgentResult)
    (s : String) (msg : String)
    (hs : s ∈ AgentOrchestrator._determine_agent_chain e)
    (hf : agentExec s = Except.error msg) :
    List.lookup s (AgentOrchestrator._execute_agent_chain e agentExec) =
      some (failureRecord msg) ∧
    (failureRecord msg).confidence = some 0 ∧
    (∀ t, t ∈ AgentOrchestrator._determine_agent_chain e →
      List.lookup t (AgentOrchestrator._execute_agent_chain e agentExec) =
        some (AgentOrchestrator.runStage agentExec t)) ∧
    (∀ t r, t ∈ AgentOrchestrator._determine_agent_chain e → agentExec t = Except.ok r →
      List.lookup t (AgentOrchestrator._execute_agent_chain e agentExec) = some r) ∧
    (AgentOrchestrator._synthesize_response primary
        (AgentOrchestrator._execute_agent_chain e agentExec)).result.specialized_results =
      AgentOrchestrator._execute_agent_chain e agentExec := by
  have hrs : AgentOrchestrator.runStage agentExec s = failureRecord msg := by
    unfold AgentOrchestrator.runStage
    rw [hf]
  refine ⟨?_, rfl, ?_, ?_, rfl⟩
  · rw [AgentOrchestrator._execute_agent_chain, lookup_map_self _ _ _ hs, hrs]
  · intro t htm
    rw [AgentOrchestrator._execute_agent_chain, lookup_map_self _ _ _ htm]
  · intro t r htm hok
    have hrt : AgentOrchestrator.runStage agentExec t = r := by
      unfold AgentOrchestrator.runStage
      rw [hok]
    rw [AgentOrchestrator._execute_agent_chain, lookup_map_self _ _ _ htm, hrt]

/-- Witness for `failed_stage_keeps_others` at the concrete failing run:
the thrown bundle stage is recorded with confidence 0 and the succeeding
pricing stage's result survives alongside it. -/
theorem failed_stage_keeps_others_witness :
    List.lookup "bundle_optimizer" (AgentOrchestrator._execute_agent_chain c4Entities c4Exec) =
      some (failureRecord "bundle backend timeout") ∧
    List.lookup "pricing_analyst" (AgentOrchestrator._execute_agent_chain c4Entities c4Exec) =
      some { confidence := some 0.9, error := none } :=
  ⟨(failed_stage_keeps_others c4Entities c4Exec c4Primary "bundle_optimizer"
      "bundle backend timeout" (by decide) rfl).1,
   (failed_stage_keeps_others c4Entities c4Exec c4Primary "bundle_optimizer"
      "bundle backend timeout" (by decide) rfl).2.2.2.1 "pricing_analyst"
      { confidence := some 0.9, error := none } (by decide) rfl⟩

/-!
## C6: follow-up handling and the additional-services merge

`SimpleAgentDemo.handle_followup` (src/simple_demo.py, lines 248-306),
restricted to its effect on the stored session.  Python's
`list(set(original + new))` is modelled as `(original ++ new).dedup`: the
same elements, deduplicated (a Python set's iteration order is
unspecified, so the theorems below only speak about membership).
-/

/-- The per-request session stored by `SimpleAgentDemo` in
`active_sessions`. -/
structure SimpleSession where
  analysis : Analysis
  pricing : Option PricingBreakdown
  conversation : List String
deriving Repr, DecidableEq

namespace SimpleAgentDemo

/-- `SimpleAgentDemo.handle_followup`, as a transition on the stored
session: the merge (and re-pricing) happens only on the
`bundle_request` branch; otherwise the session's entities are untouched. -/
def handle_followup (session : SimpleSession) (followup_message : String) :
    SimpleSession :=
  let session := { session with conversation := session.conversation ++ [followup_message] }
  let followup_analysis := analyze_customer_request followup_message
  if followup_analysis.bundle_request then
    let all_services :=
      (session.analysis.additional_services ++ followup_analysis.additional_services).dedup
    let updated_pricing :=
      calculate_pricing session.analysis.service_type all_services session.analysis.urgency
    { session with
        pricing := some updated_pricing
        analysis := { session.analysis with additional_services := all_services } }
  else session

end SimpleAgentDemo

/-- The session created by the spec's first scenario turn. -/
def c6Session : SimpleSession :=
  { analysis := SimpleAgentDemo.analyze_customer_request scenarioText
    pricing := none
    conversation := [scenarioText] }

/-- C6, counterexample.  The follow-up text `"thermostat"` extracts the
new service `thermostat_install`, but carries no bundle indicator
(`add`/`also`/`too`/`bundle`), so `handle_followup` does not merge: the
stored `additionalServices` is NOT the union of old and newly extracted
services. -/
theorem followup_merge_not_union :
    "thermostat_install" ∈
      (SimpleAgentDemo.analyze_customer_request "thermostat").additional_services ∧
    "thermostat_install" ∉
      (SimpleAgentDemo.handle_followup c6Session "thermostat").analysis.additional_services := by
  decide

/-- C6, amended.  The stored `additionalServices` never shrinks across a
follow-up, and when (and only in that case) the follow-up is detected as a
bundle request it becomes the deduplicated union of the previously stored
services and the newly extracted ones; otherwise it is left unchanged. -/
theorem followup_merge_monotone (session : SimpleSession) (followup_message : String) :
    session.analysis.additional_services ⊆
      (SimpleAgentDemo.handle_followup session followup_message).analysis.additional_services ∧
    ((SimpleAgentDemo.analyze_customer_request followup_message).bundle_request = true →
      (SimpleAgentDemo.handle_followup session followup_message).analysis.additional_services.Nodup ∧
      ∀ x, x ∈ (SimpleAgentDemo.handle_followup session followup_message).analysis.additional_services ↔
        x ∈ session.analysis.additional_services ∨
        x ∈ (SimpleAgentDemo.analyze_customer_request followup_message).additional_services) ∧
    ((SimpleAgentDemo.analyze_customer_request followup_message).bundle_request = false →
      (SimpleAgentDemo.handle_followup session followup_message).analysis.additional_services =
        session.analysis.additional_services) := by
  unfold SimpleAgentDemo.handle_followup
  cases hb : (SimpleAgentDemo.analyze_customer_request followup_message).bundle_request with
  | false =>
    simp [hb]
  | true =>
    simp only [hb, if_true]
    refine ⟨?_, fun _ => ⟨List.nodup_dedup _, fun x => ?_⟩, by simp⟩
    · intro x hx
      simp only [List.mem_dedup, List.mem_append]
      exact Or.inl hx
    · simp [List.mem_dedup, List.mem_append]

/-- Witness for `followup_merge_monotone`: the bundle follow-up
`"also add a thermostat"` merges `thermostat_install` into the scenario
session. -/
theorem followup_merge_monotone_witness :
    c6Session.analysis.additional_services ⊆
      (SimpleAgentDemo.handle_followup c6Session "also add a thermostat").analysis.additional_services ∧
    ("thermostat_install" ∈
        (SimpleAgentDemo.handle_followup c6Session "also add a thermostat").analysis.additional_services ↔
      "thermostat_install" ∈ c6Session.analysis.additional_services ∨
      "thermostat_install" ∈
        (SimpleAgentDemo.analyze_customer_request "also add a thermostat").additional_services) :=
  ⟨(followup_merge_monotone c6Session "also add a thermostat").1,
   (((followup_merge_monotone c6Session "also add a thermostat").2.1 (by decide)).2
      "thermostat_install")⟩

/-!
## C8: follow-up on an unknown request id

`AgentOrchestrator.handle_followup_request` (src/agent_orchestrator.py,
lines 118-198) and `_analyze_followup_intent` (lines 538-592).  The
unknown-id check `raise ValueError(...)` sits BEFORE the `try:` block, so
that exception propagates to the caller; exceptions thrown inside the
`try:` are converted by `_handle_followup_error` into a response with
confidence 0.4.
-/

namespace AgentOrchestrator

def intent_patterns : List (String × List String) :=
  [("bundle_request", ["add", "also", "too", "bundle", "include", "plus"]),
   ("pricing_query", ["cost", "price", "how much", "quote", "expensive"]),
   ("scheduling_change", ["reschedule", "change time", "different day", "earlier", "later"]),
   ("service_modification", ["change", "different", "instead", "modify"]),
   ("clarification", ["what", "how", "when", "why", "explain"])]

def agent_routing : List (String × String) :=
  [("bundle_request", "bundle_optimizer"), ("pricing_query", "pricing_analyst"),
   ("scheduling_change", "calendar_specialist"), ("service_modification", "primary_dispatcher"),
   ("clarification", "customer_relations"), ("general_followup", "customer_relations")]

/-- `AgentOrchestrator._analyze_followup_intent`, returning the detected
intent and the recommended agent (first matching intent wins,
`general_followup` otherwise; every intent has a routing entry). -/
def _analyze_followup_intent (followup_message : String) : String × String :=
  let fl := strToLower followup_message
  let detected_intent :=
    ((intent_patterns.find? fun ip => ip.2.any fun p => containsSub fl p).map Prod.fst).getD
      "general_followup"
  (detected_intent, (List.lookup detected_intent agent_routing).getD "customer_relations")

/-- What a call to `handle_followup_request` looks like from the caller:
either an exception propagates out, or an `AgentResponse`-shaped value is
returned (restricted to its confidence and whether the error handler
built it). -/
inductive FollowupOutcome where
  | raised (msg : String)
  | response (confidence : ℚ) (error_handler : Bool)
deriving Repr, DecidableEq

/-- Whether the call returned a value (rather than raising). -/
def FollowupOutcome.returned : FollowupOutcome → Bool
  | .raised _ => false
  | .response _ _ => true

/-- `AgentOrchestrator.handle_followup_request`.  The `active_workflows`
store is modelled by its key set. -/
def handle_followup_request (active_workflows : List String) (request_id : String)
    (message : String) (agentExec : String → Except String AgentResult) :
    FollowupOutcome :=
  if request_id ∈ active_workflows then
    match agentExec (_analyze_followup_intent message).2 with
    | .ok r => .response (r.confidence.getD 0.8) false
    | .error _ => .response 0.4 true
  else
    .raised ("Workflow " ++ request_id ++ " not found")

end AgentOrchestrator

/-- A stage executor that always succeeds, for the concrete follow-up
runs. -/
def stubAgent : String → Except String AgentResult :=
  fun _ => .ok { confidence := some 0.8, error := none }

/-- C8, counterexample.  A follow-up for a request id that is not in the
store does not return a typed failure: the `ValueError` raised before the
`try:` block escapes to the caller. -/
theorem followup_unknown_id_not_typed :
    AgentOrchestrator.handle_followup_request [] "req-1" "hello" stubAgent =
      AgentOrchestrator.FollowupOutcome.raised "Workflow req-1 not found" ∧
    (AgentOrchestrator.handle_followup_request [] "req-1" "hello" stubAgent).returned = false := by
  decide

/-- C8, amended.  For every request id not present in the store,
`handle_followup_request` raises `ValueError("Workflow <id> not found")`,
which escapes across the public boundary (the error path inside the
`try:` block, by contrast, returns a typed error response). -/
theorem followup_unknown_id_raises (active_workflows : List String)
    (request_id message : String)
    (agentExec : String → Except String AgentResult)
    (h : request_id ∉ active_workflows) :
    AgentOrchestrator.handle_followup_request active_workflows request_id message agentExec =
      AgentOrchestrator.FollowupOutcome.raised ("Workflow " ++ request_id ++ " not found") := by
  unfold AgentOrchestrator.handle_followup_request
  rw [if_neg h]

/-- Witness for `followup_unknown_id_raises` on the empty store. -/
theorem followup_unknown_id_raises_witness :
    AgentOrchestrator.handle_followup_request [] "req-1" "hello" stubAgent =
      AgentOrchestrator.FollowupOutcome.raised ("Workflow " ++ "req-1" ++ " not found") :=
  followup_unknown_id_raises [] "req-1" "hello" stubAgent (by decide)

/-!
## C9: workflow status lookup

`AgentOrchestrator.get_workflow_status` (src/agent_orchestrator.py, lines
713-731).  The `WorkflowStep`/`WorkflowContext` records come from the
`service_models` module (declared outside src/); the fields modelled here
are exactly the ones this code reads.  The `last_updated` timestamp is
outside the model; `list(set(...))` of the involved agents is modelled
as `dedup`.
-/

structure WorkflowStep where
  step_id : String
  agent_name : String
  status : String
  confidence : ℚ
deriving Repr, DecidableEq

structure WorkflowContext where
  status : String
  current_step : Nat
  workflow_steps : List WorkflowStep
  error_message : Option String
deriving Repr, DecidableEq

/-- The status dictionary returned by `get_workflow_status`. -/
structure WorkflowStatus where
  request_id : String
  status : String
  current_step : Nat
  total_steps : Nat
  agents_involved : List String
  error_message : Option String
deriving Repr, DecidableEq

namespace AgentOrchestrator

/-- `AgentOrchestrator.get_workflow_status`: `None` for an unknown id,
the stored context's status and step counts otherwise. -/
def get_workflow_status (active_workflows : List (String × WorkflowContext))
    (request_id : String) : Option WorkflowStatus :=
  match List.lookup request_id active_workflows with
  | none => none
  | some context =>
      some { request_id := request_id
             status := context.status
             current_step := context.current_step
             total_steps := context.workflow_steps.length
             agents_involved := (context.workflow_steps.map fun step => step.agent_name).dedup
             error_message := context.error_message }

end AgentOrchestrator

/-- C9.  Querying status for a request id with no stored workflow returns
`none` (the "not found" result) and never a default or empty context,
while a stored id yields exactly the stored status and step counts. -/
theorem get_status_unknown_none (active_workflows : List (String × WorkflowContext))
    (request_id : String) :
    (List.lookup request_id active_workflows = none →
      AgentOrchestrator.get_workflow_status active_workflows request_id = none) ∧
    (∀ context, List.lookup request_id active_workflows = some context →
      AgentOrchestrator.get_workflow_status active_workflows request_id =
        some { request_id := request_id
               status := context.status
               current_step := context.current_step
               total_steps := context.workflow_steps.length
               agents_involved := (context.workflow_steps.map fun step => step.agent_name).dedup
               error_message := context.error_message }) := by
  constructor
  · intro h
    unfold AgentOrchestrator.get_workflow_status
    rw [h]
  · intro context h
    unfold AgentOrchestrator.get_workflow_status
    rw [h]

/-- A stored two-step workflow for the status witness. -/
def c9Context : WorkflowContext :=
  { status := "completed"
    current_step := 2
    workflow_steps :=
      [{ step_id := "s1", agent_name := "primary_dispatcher", status := "completed",
         confidence := 0.7 },
       { step_id := "s2", agent_name := "customer_relations", status := "completed",
         confidence := 0.8 }]
    error_message := none }

/-- Witness for `get_status_unknown_none`: an unknown id on a non-empty
store yields `none`; the stored id yields the stored status and counts. -/
theorem get_status_unknown_none_witness :
    AgentOrchestrator.get_workflow_status [("req-9", c9Context)] "missing" = none ∧
    AgentOrchestrator.get_workflow_status [("req-9", c9Context)] "req-9" =
      some { request_id := "req-9"
             status := c9Context.status
             current_step := c9Context.current_step
             total_steps := c9Context.workflow_steps.length
             agents_involved := (c9Context.workflow_steps.map fun step => step.agent_name).dedup
             error_message := c9Context.error_message } :=
  ⟨(get_status_unknown_none [("req-9", c9Context)] "missing").1 rfl,
   (get_status_unknown_none [("req-9", c9Context)] "req-9").2 c9Context rfl⟩
